import Mathlib

/-!
Verification of the GRASP2026 symptom-diagnosis core.

The repository is a medical assessment app: a TypeScript frontend
(src/frontend, src/unnamed) calling a Flask backend (Medical-XAI) that
scores reported symptoms against a knowledge base of conditions with a
hybrid TF-IDF + symptom-overlap algorithm, ranks candidates, and decides
whether clarification is needed.  The backend source (model.py,
xai_formatter.py, app.py) is not part of the snapshot — only its README
and the frontend — so the scoring pipeline below is modelled from the
spec and the backend README; the frontend pieces (getRiskLevel, the
submit guards, the unmatched-symptom filter, the empty-result guard) are
embedded directly from the TypeScript source.

Numbers are modelled as exact rationals (ℚ); the weights and thresholds
are the configuration constants named in the backend README
(TF_IDF_WEIGHT = 0.60, SYMPTOM_OVERLAP_WEIGHT = 0.40,
MINIMUM_RELEVANCE_SCORE = 0.1, CONFIDENCE_THRESHOLD = 0.50,
DIFFERENTIAL_RANGE = 0.05).
-/

namespace Grasp

/-- Modelled from the spec: a Condition of the knowledge base (spec §3 and the
backend README's knowledge-base schema).  The backend's model.py is missing
from the snapshot.  Only the fields the verified claims touch are kept;
`symptoms` is the canonical symptom set, an ordered list of unique keys. -/
structure Condition where
  id : String
  name : String
  symptoms : List String
  duration_min : Nat
  duration_max : Nat
  is_chronic : Bool
deriving DecidableEq, Repr

/-- Modelled from the spec: TF-IDF weight configuration constant (README: model.py). -/
def TF_IDF_WEIGHT : ℚ := 6/10

/-- Modelled from the spec: symptom-overlap weight configuration constant. -/
def SYMPTOM_OVERLAP_WEIGHT : ℚ := 4/10

/-- Modelled from the spec: minimum score for a condition to enter the ranking. -/
def MINIMUM_RELEVANCE_SCORE : ℚ := 1/10

/-- Modelled from the spec: threshold below which clarification is requested. -/
def CONFIDENCE_THRESHOLD : ℚ := 1/2

/-- Modelled from the spec: score-gap window for close alternatives. -/
def DIFFERENTIAL_RANGE : ℚ := 5/100

/-- Modelled from the spec: the condition's symptoms present in the normalized
symptom set (spec §4.2; model.py is missing).  The normalized input is a list
of canonical symptom keys; matching is plain membership, as in the backend's
set intersection. -/
def matched_symptoms (c : Condition) (normalized : List String) : List String :=
  c.symptoms.filter (fun s => decide (s ∈ normalized))

/-- Modelled from the spec: the condition's symptoms absent from the normalized
set (condition.symptom_set minus matched, spec §3). -/
def unmatched_symptoms (c : Condition) (normalized : List String) : List String :=
  c.symptoms.filter (fun s => decide (s ∉ normalized))

/-- Modelled from the spec: overlap ratio = matched count / total condition
symptoms (spec §4.2, README: matches / number of disease symptoms). -/
def overlap_ratio (c : Condition) (normalized : List String) : ℚ :=
  if c.symptoms.length = 0 then 0
  else ((matched_symptoms c normalized).length : ℚ) / (c.symptoms.length : ℚ)

/-- Modelled from the spec: final score = 0.60 × text similarity + 0.40 ×
overlap ratio (spec §4.2, README: combined score).  The TF-IDF cosine
similarity itself lives in the missing model.py; it enters here as the
already-computed component `text_sim`. -/
def final_score (text_sim : ℚ) (c : Condition) (normalized : List String) : ℚ :=
  TF_IDF_WEIGHT * text_sim + SYMPTOM_OVERLAP_WEIGHT * overlap_ratio c normalized

/-- A scored candidate in the ranking: a condition together with its final score. -/
structure RankedCandidate where
  cond : Condition
  score : ℚ
deriving DecidableEq, Repr

/-- Reason enum of the Confidence Outcome (spec §3). -/
inductive ClarificationReason where
  | BELOW_THRESHOLD
  | CLOSE_ALTERNATIVES
  | NONE
deriving DecidableEq, Repr

/-- Modelled from the spec: the Confidence Decider (spec §4.4; xai_formatter.py
is missing).  Given the ranking (rank 1 first): below the threshold →
BELOW_THRESHOLD; else a rank-1/rank-2 gap within the differential range →
CLOSE_ALTERNATIVES; otherwise NONE. -/
def confidence_reason (ranking : List RankedCandidate) : ClarificationReason :=
  match ranking with
  | [] => .NONE
  | primary :: rest =>
    if primary.score < CONFIDENCE_THRESHOLD then .BELOW_THRESHOLD
    else
      match rest with
      | [] => .NONE
      | second :: _ =>
        if primary.score - second.score ≤ DIFFERENTIAL_RANGE then .CLOSE_ALTERNATIVES
        else .NONE

/-- Modelled from the spec: the alternatives list = every ranked candidate whose
score is within the differential range of the primary (spec §4.4, not only
rank 2; the ranking is descending so the gap is primary minus candidate). -/
def alternatives (ranking : List RankedCandidate) : List RankedCandidate :=
  match ranking with
  | [] => []
  | primary :: _ =>
    ranking.filter (fun rc => decide (primary.score - rc.score ≤ DIFFERENTIAL_RANGE))

/-- Modelled from the spec: the Duration Validator (spec §4.7; xai_formatter.py
is missing).  For a non-chronic primary it warns when duration_days falls
strictly outside the inclusive [duration_min, duration_max] bounds; chronic
conditions are not warned about here (the claims only concern non-chronic
candidates, so the chronic special case is modelled as no warning). -/
def duration_warning (c : Condition) (duration_days : Nat) : Option String :=
  if c.is_chronic then none
  else if duration_days < c.duration_min then
    some "unusually early for this presentation"
  else if duration_days > c.duration_max then
    some "longer than typical for this condition - consider escalation"
  else none

/-- Error taxonomy of the core (spec §7). -/
inductive PipelineError where
  | EmptyInputError
  | EmptyResultError
  | NotReadyError
  | InvalidDurationError
deriving DecidableEq, Repr

/-- Helper for comma splitting, structural over the character list: `acc` holds
the characters of the current token in reverse. -/
def splitCommaAux : List Char → List Char → List (List Char)
  | [], acc => [acc.reverse]
  | c :: cs, acc =>
    if c = ',' then acc.reverse :: splitCommaAux cs [] else splitCommaAux cs (c :: acc)

/-- Whitespace trimming on both ends of a character list (the behavior of
String.trim / JavaScript String.prototype.trim on the whitespace the inputs
use). -/
def trimChars (l : List Char) : List Char :=
  ((l.dropWhile Char.isWhitespace).reverse.dropWhile Char.isWhitespace).reverse

/-- Trimming as a String function. -/
def trimStr (s : String) : String := String.mk (trimChars s.toList)

/-- Modelled from the spec: input tokenization — split the raw symptom string on
commas, trim each token, drop blanks (README: split by comma, strip
whitespace; same as the frontend's split/trim/filter(Boolean)). -/
def split_trim (raw : String) : List String :=
  ((splitCommaAux raw.toList []).map (fun t => String.mk (trimChars t))).filter
    (fun s => decide (s ≠ ""))

/-- Descending comparator of the Ranker (spec §4.3): higher score first, ties
broken by condition id for determinism. -/
def candidate_le (a b : RankedCandidate) : Bool :=
  decide (b.score < a.score) || (decide (a.score = b.score) && decide (a.cond.id ≤ b.cond.id))

/-- Modelled from the spec: the diagnosis pipeline (spec §2, §4.2–4.3, §7;
model.py/app.py are missing).  Blank input is rejected with EmptyInputError
before any scoring; every condition is scored, those below the minimum
relevance are dropped, the survivors are sorted descending; an empty surviving
list is the EmptyResultError no-match outcome.  The per-request TF-IDF
component is abstracted as `text_sim`. -/
def diagnose (kb : List Condition) (text_sim : Condition → ℚ) (raw : String) :
    Except PipelineError (List RankedCandidate) :=
  let normalized := split_trim raw
  if normalized.isEmpty then .error .EmptyInputError
  else
    let scored := kb.map (fun c => { cond := c, score := final_score (text_sim c) c normalized : RankedCandidate })
    let surviving := scored.filter (fun rc => decide (MINIMUM_RELEVANCE_SCORE ≤ rc.score))
    let ranked := surviving.mergeSort candidate_le
    if ranked.isEmpty then .error .EmptyResultError else .ok ranked

/-- Embedded from src/frontend/services/prediction.ts (getRiskLevel, lines
179–183) and the identical copy in src/frontend/services/gemini.ts: risk level
from a 0–1 confidence value. -/
def getRiskLevel (confidence : ℚ) : String :=
  if 7/10 ≤ confidence then "High"
  else if 4/10 ≤ confidence then "Moderate"
  else "Low"

/-- Embedded from src/unnamed/part_003 (AssessmentForm): the Start Analysis
button carries disabled when the trimmed symptom text is empty, so submission
is possible exactly when the trimmed text is non-empty. -/
def assessmentFormCanSubmit (symptoms : String) : Bool :=
  !(trimStr symptoms == "")

/-- Embedded from src/unnamed/part_000 (SymptomSelector.handleSubmit, lines
50–56): submission proceeds only when the selected-symptom set is non-empty;
a size of zero alerts and returns without invoking onSubmit. -/
def symptomSelectorSubmits (selected : Finset String) : Bool :=
  decide (selected.card ≠ 0)

/-- Embedded from src/frontend/services/prediction.ts (analyzeSymptoms, lines
223–225): a missing or empty diseases array throws rather than proceeding. -/
def analyzeSymptomsGuard (diseases : Option (List String)) : Except String (List String) :=
  match diseases with
  | none => .error "No diseases matched. Please try different symptoms."
  | some ds =>
    if ds.length = 0 then .error "No diseases matched. Please try different symptoms."
    else .ok ds

/-- Embedded from src/frontend/services/prediction.ts line 285: the adapter
computes unmatched_symptoms as all_symptoms filtered to those not contained in
matched_symptoms. -/
def frontendUnmatched (all_symptoms matched : List String) : List String :=
  all_symptoms.filter (fun s => !(matched.contains s))

/-- The Common Cold condition of the knowledge base, as given in the spec's
scenario (§8) and the backend README's example response. -/
def commonCold : Condition :=
  { id := "common_cold"
    name := "Common Cold"
    symptoms := ["cough", "runny nose", "sore throat", "sneezing", "congestion", "headache", "fatigue"]
    duration_min := 3
    duration_max := 14
    is_chronic := false }

/-- The Influenza condition, from the backend README's example response. -/
def flu : Condition :=
  { id := "flu"
    name := "Influenza (Flu)"
    symptoms := ["fever", "cough", "body aches", "chills", "fatigue"]
    duration_min := 3
    duration_max := 7
    is_chronic := false }

/-- Counting the condition symptoms present in the normalized list coincides
with the cardinality of the set intersection, when the condition's symptom set
has no duplicates. -/
theorem matched_length_eq_card_inter (l n : List String) (hnd : l.Nodup) :
    (l.filter (fun s => decide (s ∈ n))).length = (l.toFinset ∩ n.toFinset).card := by
  rw [← List.toFinset_card_of_nodup (hnd.filter _), List.toFinset_filter]
  congr 1
  rw [← Finset.filter_mem_eq_inter]
  apply Finset.filter_congr
  intro x _
  simp

/-- C1: the final score of a condition is 0.60 × its text-similarity component
plus 0.40 × its overlap ratio, and the overlap ratio is the number of the
condition's symptoms present in the normalized set (the cardinality of the
intersection) divided by the size of the condition's symptom set. -/
theorem final_score_is_weighted_sum (ts : ℚ) (c : Condition) (n : List String)
    (hnd : c.symptoms.Nodup) (hne : c.symptoms ≠ []) :
    final_score ts c n = 6/10 * ts + 4/10 * overlap_ratio c n ∧
    overlap_ratio c n =
      ((c.symptoms.toFinset ∩ n.toFinset).card : ℚ) / (c.symptoms.toFinset.card : ℚ) := by
  constructor
  · rfl
  · rw [overlap_ratio, if_neg (by simpa using hne)]
    rw [matched_symptoms, matched_length_eq_card_inter c.symptoms n hnd,
      List.toFinset_card_of_nodup hnd]

/-- Witness for C1 at the spec's scenario: the report fever/cough/sore
throat/fatigue against Common Cold's seven symptoms. -/
theorem final_score_is_weighted_sum_witness :
    final_score (3/4) commonCold ["fever", "cough", "sore throat", "fatigue"] =
      6/10 * (3/4) +
        4/10 * overlap_ratio commonCold ["fever", "cough", "sore throat", "fatigue"] ∧
    overlap_ratio commonCold ["fever", "cough", "sore throat", "fatigue"] =
      ((commonCold.symptoms.toFinset ∩
          (["fever", "cough", "sore throat", "fatigue"] : List String).toFinset).card : ℚ) /
        (commonCold.symptoms.toFinset.card : ℚ) :=
  final_score_is_weighted_sum (3/4) commonCold _ (by decide) (by decide)

/-- C2: the Confidence Decider reports BELOW_THRESHOLD exactly for a primary
final score strictly below the confidence threshold 0.50; a score exactly at
the threshold never yields BELOW_THRESHOLD. -/
theorem below_threshold_boundary (p : RankedCandidate) (rest : List RankedCandidate) :
    confidence_reason (p :: rest) = .BELOW_THRESHOLD ↔ p.score < CONFIDENCE_THRESHOLD := by
  rcases rest with _ | ⟨s, rest⟩ <;> simp only [confidence_reason] <;>
    split_ifs <;> simp_all

/-- Witness for C2: a primary at exactly 0.50 does not trigger BELOW_THRESHOLD
and one at 0.4999 does. -/
theorem below_threshold_boundary_witness :
    confidence_reason [{ cond := commonCold, score := 1/2 }] ≠ .BELOW_THRESHOLD ∧
    confidence_reason [{ cond := commonCold, score := 4999/10000 }] = .BELOW_THRESHOLD :=
  ⟨fun h => absurd ((below_threshold_boundary _ _).mp h)
      (by norm_num [CONFIDENCE_THRESHOLD]),
    (below_threshold_boundary _ _).mpr (by norm_num [CONFIDENCE_THRESHOLD])⟩

/-- C3: with the primary meeting the confidence threshold and at least two
candidates, the decider reports CLOSE_ALTERNATIVES exactly when the rank-1 to
rank-2 score gap is at most the differential range 0.05 (inclusive), and in
that case both rank 1 and rank 2 are in the alternatives list. -/
theorem close_alternatives_boundary (p s : RankedCandidate) (rest : List RankedCandidate)
    (hp : CONFIDENCE_THRESHOLD ≤ p.score) :
    (confidence_reason (p :: s :: rest) = .CLOSE_ALTERNATIVES ↔
      p.score - s.score ≤ DIFFERENTIAL_RANGE) ∧
    (p.score - s.score ≤ DIFFERENTIAL_RANGE →
      p ∈ alternatives (p :: s :: rest) ∧ s ∈ alternatives (p :: s :: rest)) := by
  constructor
  · simp only [confidence_reason, if_neg (not_lt.mpr hp)]
    split_ifs with h <;> simp_all
  · intro h
    constructor <;> rw [alternatives] <;> apply List.mem_filter.mpr <;> refine ⟨by simp, ?_⟩
    · simpa using (by norm_num [DIFFERENTIAL_RANGE] : p.score - p.score ≤ DIFFERENTIAL_RANGE)
    · simpa using h

/-- Witness for C3: the boundary case of a gap of exactly 0.05 (scores 0.60
and 0.55) counts as close, and the rank-2 candidate appears in alternatives. -/
theorem close_alternatives_boundary_witness :
    confidence_reason [⟨commonCold, 60/100⟩, ⟨flu, 55/100⟩] = .CLOSE_ALTERNATIVES ∧
    (⟨flu, 55/100⟩ : RankedCandidate) ∈ alternatives [⟨commonCold, 60/100⟩, ⟨flu, 55/100⟩] := by
  have h := close_alternatives_boundary ⟨commonCold, 60/100⟩ ⟨flu, 55/100⟩ []
    (by norm_num [CONFIDENCE_THRESHOLD])
  have hgap : ((⟨commonCold, 60/100⟩ : RankedCandidate)).score -
      ((⟨flu, 55/100⟩ : RankedCandidate)).score ≤ DIFFERENTIAL_RANGE := by
    norm_num [DIFFERENTIAL_RANGE]
  exact ⟨h.1.mpr hgap, (h.2 hgap).2⟩

/-- C4: input that is empty or blank after trimming is rejected with
EmptyInputError before any scoring (the outcome is the same for every
knowledge base and every text-similarity assignment, so no condition is ever
scored), and the frontend callers refuse to submit such input: the
AssessmentForm button is disabled for blank text and the SymptomSelector does
not invoke onSubmit with an empty selection. -/
theorem empty_input_rejected (kb : List Condition) (ts : Condition → ℚ) (raw sym : String)
    (sel : Finset String) (hraw : split_trim raw = []) (hsym : trimStr sym = "")
    (hsel : sel = ∅) :
    diagnose kb ts raw = .error .EmptyInputError ∧
    assessmentFormCanSubmit sym = false ∧
    symptomSelectorSubmits sel = false := by
  refine ⟨?_, ?_, ?_⟩
  · simp [diagnose, hraw]
  · simp [assessmentFormCanSubmit, hsym]
  · simp [symptomSelectorSubmits, hsel]

/-- Witness for C4 at a raw input that is blank after trimming. -/
theorem empty_input_rejected_witness :
    diagnose [commonCold, flu] (fun _ => 1/2) "  ,  " = .error .EmptyInputError ∧
    assessmentFormCanSubmit "   " = false ∧
    symptomSelectorSubmits ∅ = false :=
  empty_input_rejected [commonCold, flu] (fun _ => 1/2) "  ,  " "   " ∅
    (by decide) (by decide) rfl

/-- C5: when every scored condition falls below the minimum relevance, the
pipeline fails with the distinct EmptyResultError outcome (an error value of
its own kind, not EmptyInputError, and no substituted default ranking), and
the frontend adapter likewise turns a missing or empty diseases array into a
thrown no-match error instead of proceeding. -/
theorem empty_result_distinct (kb : List Condition) (ts : Condition → ℚ) (raw : String)
    (hne : split_trim raw ≠ [])
    (hall : ∀ c ∈ kb, final_score (ts c) c (split_trim raw) < MINIMUM_RELEVANCE_SCORE) :
    diagnose kb ts raw = .error .EmptyResultError ∧
    PipelineError.EmptyResultError ≠ PipelineError.EmptyInputError ∧
    (∀ ds : Option (List String), ds = none ∨ ds = some [] →
      analyzeSymptomsGuard ds = .error "No diseases matched. Please try different symptoms.") := by
  refine ⟨?_, by simp, ?_⟩
  · have hfilter :
        (kb.map (fun c =>
            ({ cond := c, score := final_score (ts c) c (split_trim raw) } : RankedCandidate))).filter
          (fun rc => decide (MINIMUM_RELEVANCE_SCORE ≤ rc.score)) = [] := by
      rw [List.filter_eq_nil_iff]
      intro rc hrc
      obtain ⟨c, hc, rfl⟩ := List.mem_map.mp hrc
      simpa using not_le.mpr (hall c hc)
    simp only [diagnose, hfilter]
    rw [if_neg (by simpa [List.isEmpty_iff] using hne)]
    simp [List.mergeSort_nil]
  · intro ds hds
    rcases hds with rfl | rfl <;> simp [analyzeSymptomsGuard]

/-- Witness for C5: a one-condition knowledge base sharing no symptom with the
report and zero text similarity scores 0 < 0.1, so the pipeline reports the
no-match error. -/
theorem empty_result_distinct_witness :
    diagnose [flu] (fun _ => 0) "insomnia" = .error .EmptyResultError :=
  (empty_result_distinct [flu] (fun _ => 0) "insomnia" (by decide)
    (by
      intro c hc
      simp only [List.mem_singleton] at hc
      subst hc
      have hm : matched_symptoms flu (split_trim "insomnia") = [] := by decide
      have hl : flu.symptoms.length = 5 := by decide
      rw [final_score, overlap_ratio, hm, hl]
      norm_num [TF_IDF_WEIGHT, SYMPTOM_OVERLAP_WEIGHT, MINIMUM_RELEVANCE_SCORE])).1

/-- C6: for a non-chronic primary candidate the duration warning is present
exactly when duration_days is strictly below duration_min or strictly above
duration_max; the inclusive bounds themselves produce no warning. -/
theorem duration_warning_bounds (c : Condition) (d : Nat) (hc : c.is_chronic = false) :
    (duration_warning c d).isSome = true ↔ d < c.duration_min ∨ c.duration_max < d := by
  simp only [duration_warning, hc]
  split_ifs with h1 h2 <;> simp_all

/-- Witness for C6 on Common Cold's 3–14 day range: days 3 and 14 warn
nothing, days 2 and 15 warn. -/
theorem duration_warning_bounds_witness :
    (duration_warning commonCold 3).isSome = false ∧
    (duration_warning commonCold 14).isSome = false ∧
    (duration_warning commonCold 2).isSome = true ∧
    (duration_warning commonCold 15).isSome = true := by
  refine ⟨?_, ?_, ?_, ?_⟩
  · have h := duration_warning_bounds commonCold 3 rfl
    have h2 : ¬((duration_warning commonCold 3).isSome = true) :=
      fun ht => absurd (h.mp ht) (by decide)
    simpa using h2
  · have h := duration_warning_bounds commonCold 14 rfl
    have h2 : ¬((duration_warning commonCold 14).isSome = true) :=
      fun ht => absurd (h.mp ht) (by decide)
    simpa using h2
  · exact (duration_warning_bounds commonCold 2 rfl).mpr (by decide)
  · exact (duration_warning_bounds commonCold 15 rfl).mpr (by decide)

/-- C7: adding one more normalized symptom that belongs to condition C's
symptom set never decreases C's overlap ratio, and never decreases C's final
score provided the text-similarity component stays the same or improves. -/
theorem overlap_monotone (c : Condition) (n : List String) (s : String) (ts ts2 : ℚ)
    (_hs : s ∈ c.symptoms) (hts : ts ≤ ts2) :
    overlap_ratio c n ≤ overlap_ratio c (s :: n) ∧
    final_score ts c n ≤ final_score ts2 c (s :: n) := by
  have hlen : (matched_symptoms c n).length ≤ (matched_symptoms c (s :: n)).length := by
    simp only [matched_symptoms, ← List.countP_eq_length_filter]
    apply List.countP_mono_left
    intro x _ h
    simp only [decide_eq_true_eq] at h ⊢
    exact List.mem_cons_of_mem s h
  have hov : overlap_ratio c n ≤ overlap_ratio c (s :: n) := by
    rw [overlap_ratio, overlap_ratio]
    split_ifs with h
    · exact le_refl 0
    · have hpos : (0 : ℚ) < (c.symptoms.length : ℚ) := by
        exact_mod_cast Nat.pos_of_ne_zero h
      exact div_le_div_of_nonneg_right (by exact_mod_cast hlen) hpos.le
  refine ⟨hov, ?_⟩
  rw [final_score, final_score]
  exact add_le_add
    (mul_le_mul_of_nonneg_left hts (by norm_num [TF_IDF_WEIGHT]))
    (mul_le_mul_of_nonneg_left hov (by norm_num [SYMPTOM_OVERLAP_WEIGHT]))

/-- Witness for C7: adding fatigue (a Common Cold symptom) to a report of
cough does not decrease Common Cold's overlap ratio or final score. -/
theorem overlap_monotone_witness :
    overlap_ratio commonCold ["cough"] ≤ overlap_ratio commonCold ["fatigue", "cough"] ∧
    final_score (1/2) commonCold ["cough"] ≤
      final_score (1/2) commonCold ["fatigue", "cough"] :=
  overlap_monotone commonCold ["cough"] "fatigue" (1/2) (1/2) (by decide) (le_refl _)

/-- C8: the pipeline is a pure function of (knowledge base, text similarity,
input), so repeated evaluations on identical input give identical output; and
a condition's matched symptoms and overlap ratio depend only on which
symptoms are in the normalized set, not on its iteration order. -/
theorem pipeline_deterministic (kb : List Condition) (ts : Condition → ℚ) (raw : String)
    (c : Condition) (n1 n2 : List String) (hmem : ∀ x, x ∈ n1 ↔ x ∈ n2) :
    diagnose kb ts raw = diagnose kb ts raw ∧
    matched_symptoms c n1 = matched_symptoms c n2 ∧
    overlap_ratio c n1 = overlap_ratio c n2 := by
  have hm : matched_symptoms c n1 = matched_symptoms c n2 := by
    apply List.filter_congr
    intro x _
    exact decide_eq_decide.mpr (hmem x)
  exact ⟨rfl, hm, by rw [overlap_ratio, overlap_ratio, hm]⟩

/-- Witness for C8: two orderings of the same symptom set yield the same
matched symptoms and the same overlap ratio for Common Cold. -/
theorem pipeline_deterministic_witness :
    diagnose [commonCold, flu] (fun _ => 1/2) "cough, fatigue" =
      diagnose [commonCold, flu] (fun _ => 1/2) "cough, fatigue" ∧
    matched_symptoms commonCold ["cough", "fatigue"] =
      matched_symptoms commonCold ["fatigue", "cough"] ∧
    overlap_ratio commonCold ["cough", "fatigue"] =
      overlap_ratio commonCold ["fatigue", "cough"] :=
  pipeline_deterministic [commonCold, flu] (fun _ => 1/2) "cough, fatigue"
    commonCold ["cough", "fatigue"] ["fatigue", "cough"]
    (by intro x; simp [List.mem_cons]; tauto)

/-- C9: a condition's matched symptoms are a subset of its symptom set, its
unmatched symptoms are exactly the symptom set minus the matched ones, and the
frontend adapter's unmatched list for the top disease is all_symptoms with
every member of matched_symptoms removed. -/
theorem matched_unmatched_exact (c : Condition) (n : List String) (all_s m : List String) :
    (∀ s ∈ matched_symptoms c n, s ∈ c.symptoms) ∧
    (∀ s, s ∈ unmatched_symptoms c n ↔ s ∈ c.symptoms ∧ s ∉ matched_symptoms c n) ∧
    (∀ s, s ∈ frontendUnmatched all_s m ↔ s ∈ all_s ∧ s ∉ m) := by
  refine ⟨?_, ?_, ?_⟩
  · intro s hsm
    exact (List.mem_filter.mp hsm).1
  · intro s
    simp only [unmatched_symptoms, matched_symptoms, List.mem_filter, decide_eq_true_eq]
    tauto
  · intro s
    have hb : (!(m.contains s)) = true ↔ s ∉ m := by
      simp [List.contains, List.elem_iff]
    simp only [frontendUnmatched, List.mem_filter, hb]

/-- Witness for C9 at the spec's scenario report against Common Cold, and a
concrete check of the frontend filter. -/
theorem matched_unmatched_exact_witness :
    ("runny nose" ∈ unmatched_symptoms commonCold ["fever", "cough", "sore throat", "fatigue"] ↔
      "runny nose" ∈ commonCold.symptoms ∧
        "runny nose" ∉ matched_symptoms commonCold ["fever", "cough", "sore throat", "fatigue"]) ∧
    ("headache" ∈ frontendUnmatched commonCold.symptoms ["cough", "sore throat", "fatigue"] ↔
      "headache" ∈ commonCold.symptoms ∧ "headache" ∉ ["cough", "sore throat", "fatigue"]) :=
  ⟨(matched_unmatched_exact commonCold ["fever", "cough", "sore throat", "fatigue"]
      commonCold.symptoms ["cough", "sore throat", "fatigue"]).2.1 "runny nose",
    (matched_unmatched_exact commonCold ["fever", "cough", "sore throat", "fatigue"]
      commonCold.symptoms ["cough", "sore throat", "fatigue"]).2.2 "headache"⟩

/-- C10: risk classification is total over the confidence value — High exactly
when confidence ≥ 0.7, Moderate exactly when 0.4 ≤ confidence < 0.7, Low in
every other case (including zero and negative values). -/
theorem getRiskLevel_total (c : ℚ) :
    (getRiskLevel c = "High" ↔ 7/10 ≤ c) ∧
    (getRiskLevel c = "Moderate" ↔ 4/10 ≤ c ∧ c < 7/10) ∧
    (getRiskLevel c = "Low" ↔ c < 4/10) := by
  rw [getRiskLevel]
  split_ifs with h1 h2 <;>
    refine ⟨?_, ?_, ?_⟩ <;> constructor <;> intro hx <;> simp_all <;> linarith

/-- Witness for C10 at confidences 0, 0.5 and 0.9. -/
theorem getRiskLevel_total_witness :
    getRiskLevel 0 = "Low" ∧ getRiskLevel (1/2) = "Moderate" ∧ getRiskLevel (9/10) = "High" :=
  ⟨(getRiskLevel_total 0).2.2.mpr (by norm_num),
    (getRiskLevel_total (1/2)).2.1.mpr (by norm_num),
    (getRiskLevel_total (9/10)).1.mpr (by norm_num)⟩

end Grasp
